import Mathlib

/-!
Verification of the SRCDS monitor (`src/monitor/check_srcds_restart.py`).

The monitor periodically probes a game server via A2S and restarts its
systemd unit when the server stops responding, subject to safety limits.
This file gives a shallow embedding of the restart-decision engine and the
monitor loop, and proves properties about it.

Modeling conventions:
- Monotonic timestamps and durations (`time.monotonic()` values, the
  cooldown) are rationals `ℚ`; `time.monotonic()` reads within a single
  call of a method are modeled as one value `now` passed in.
- The systemd `ActiveState` strings are kept as Lean `String`s, matched
  against the same literals the Python `match` statements use.
- External effects (the D-Bus/systemctl control calls, the A2S probe, the
  state queries) are parameters: the result each external call would
  return is passed in, and the function computes what the Python code
  does with it.  Exceptions are modeled with `Except`.
- Python's mutable `self` state becomes an explicit `MonitorState` value
  threaded through; raising an exception is `Except.error`.
- The debug-only `assert self.is_restart_allowed()[0]` in `_restart_unit`
  is a no-op when the preceding check passed and is elided.
-/

/-- Exceptions the monitor raises: `RestartFailed` (control-channel
failure) and `RuntimeError` (unknown unit state / stuck transitional
state). `KeyboardInterrupt` is not modeled; it only ends the loop
cleanly. -/
inductive MonitorError where
  | restartFailed (msg : String)
  | runtimeError (msg : String)
deriving DecidableEq, Repr

/-- The two control-channel implementations: D-Bus (structured IPC) and
the systemctl command-line fallback. -/
inductive ControlMode where
  | dbus
  | systemctl
deriving DecidableEq, Repr

/-- Per-monitor private state, from `Monitor.__init__` (lines 72-77):
`_consecutive_failures`, `_restart_timestamps_monotonic` (sorted
ascending), `_proc_responded_after_start`. -/
structure MonitorState where
  consecutive_failures : Nat
  restart_timestamps_monotonic : List ℚ
  proc_responded_after_start : Bool
deriving DecidableEq, Repr

/-- The configuration fields the decision engine reads.  (Endpoint, poll
interval and probe timeout only parameterize the external probe and
sleep calls and are not part of the embedded logic.)  `_validate_params`
guarantees `failure_threshold ≥ 1`, `restart_cooldown ≥ 0`,
`max_restarts_per_hour ≥ 0`. -/
structure Config where
  failure_threshold : Int
  restart_cooldown : ℚ
  max_restarts_per_hour : Int
deriving DecidableEq, Repr

/-- The validation performed by `Monitor._validate_params` on the fields
of `Config` (lines 89-100). -/
def validParams (cfg : Config) : Prop :=
  1 ≤ cfg.failure_threshold ∧ 0 ≤ cfg.restart_cooldown ∧ 0 ≤ cfg.max_restarts_per_hour

/-- Model of the Python builtin `int()` applied to a float: truncation
toward zero (`Int.tdiv` is toward-zero division). -/
def pyInt (q : ℚ) : Int := q.num.tdiv q.den

/-- Model of the `while lo < hi` loop of `bisect.bisect_left(a, x, lo,
hi)` from the Python standard library: binary search for the leftmost
insertion point of `x` in the sorted slice `a[lo:hi]`.  The interval
`hi - lo` shrinks by at least one per iteration, so running the loop
with `hi - lo` as structural fuel computes the loop exactly (the fuel-0
case is the loop exit `lo = hi`). -/
def bisect_left_aux (a : List ℚ) (x : ℚ) : Nat → Nat → Nat → Nat
  | lo, _hi, 0 => lo
  | lo, hi, fuel + 1 =>
    if lo < hi then
      let mid := (lo + hi) / 2
      if a.getD mid 0 < x then bisect_left_aux a x (mid + 1) hi fuel
      else bisect_left_aux a x lo mid fuel
    else lo

/-- Model of `bisect.bisect_left(a, x)`. -/
def bisect_left (a : List ℚ) (x : ℚ) : Nat := bisect_left_aux a x 0 a.length a.length

/-- Model of `Monitor.prune_restart_timestamps` (lines 244-250): drop the
timestamps older than one hour before `now`, using `bisect_left` on the
sorted list. -/
def prune_restart_timestamps (now : ℚ) (ts : List ℚ) : List ℚ :=
  let cutoff := now - 3600
  let idx := bisect_left ts cutoff
  if idx ≠ 0 then ts.drop idx else ts

/-- The f-string of line 275: `f"cooldown ({int(...)}s remaining)"`. -/
def cooldown_reason (remaining : Int) : String := s!"cooldown ({remaining}s remaining)"

/-- The f-string of line 281:
`f"rate limit reached ({len(...)} restarts in last hour)"`. -/
def rate_limit_reason (n : Nat) : String := s!"rate limit reached ({n} restarts in last hour)"

/-- The f-string of line 285: `f"unit is in unknown state {active_state}"`. -/
def unknown_state_reason (active_state : String) : String :=
  s!"unit is in unknown state {active_state}"

/-- The `ActiveState` literals the monitor's `match` statements
recognize; any other string is an Unknown state. -/
def known_states : List String :=
  [("active"), ("inactive"), ("failed"), ("maintenance"),
   ("activating"), ("deactivating"), ("reloading"), ("refreshing")]

/-- The rate-limit fall-through at the end of the `"active"` branch of
`Monitor.is_restart_allowed` (lines 277-283): `max_restarts_per_hour =
0` means unlimited; otherwise compare the (pruned) history length. -/
def rate_limit_check (cfg : Config) (st1 : MonitorState) :
    MonitorState × Except MonitorError (Bool × String) :=
  let n := st1.restart_timestamps_monotonic.length
  if 0 < cfg.max_restarts_per_hour ∧ cfg.max_restarts_per_hour ≤ (n : Int) then
    (st1, Except.ok (false, (s!"rate limit reached ({n} restarts in last hour)")))
  else
    (st1, Except.ok (true, ("restart allowed")))

/-- The `case "active":` body of `Monitor.is_restart_allowed` (lines
267-283), acting on the already-pruned state `st1`: startup grace, then
cooldown against the last recorded attempt, then the rate limit. -/
def active_branch (cfg : Config) (now : ℚ) (st1 : MonitorState) :
    MonitorState × Except MonitorError (Bool × String) :=
  if st1.proc_responded_after_start = false then
    (st1, Except.ok (false, ("current unit process has not responded yet; likely in startup")))
  else
    match st1.restart_timestamps_monotonic.getLast? with
    | some last =>
        let elapsed_since_last := now - last
        if elapsed_since_last < cfg.restart_cooldown then
          let remaining := pyInt (cfg.restart_cooldown - elapsed_since_last)
          (st1, Except.ok (false, (s!"cooldown ({remaining}s remaining)")))
        else rate_limit_check cfg st1
    | none => rate_limit_check cfg st1

/-- Model of `Monitor.is_restart_allowed` (lines 252-285).  It first
prunes the attempt history (mutating `self`, hence the returned state),
then queries the unit state (`active_state`, passed in) and walks the
decision table.  An unrecognized state raises `RuntimeError`. -/
def is_restart_allowed (cfg : Config) (now : ℚ) (active_state : String)
    (st : MonitorState) : MonitorState × Except MonitorError (Bool × String) :=
  let st1 : MonitorState :=
    { st with restart_timestamps_monotonic :=
        prune_restart_timestamps now st.restart_timestamps_monotonic }
  match active_state with
  | "failed" => (st1, Except.ok (false, ("restart forbidden as the unit failed")))
  | "inactive" => (st1, Except.ok (false, ("unit is listed as inactive")))
  | "activating" | "deactivating" | "refreshing" | "reloading" =>
      (st1, Except.ok (false, (s!"unit is in a transitional state {active_state}")))
  | "maintenance" => (st1, Except.ok (false, ("unit is in maintenance")))
  | "active" => active_branch cfg now st1
  | _ =>
      (st1, Except.error (MonitorError.runtimeError (s!"unit is in unknown state {active_state}")))

/-- Model of `Monitor._restart_unit` (lines 226-242).  The underlying
D-Bus/systemctl restart call's outcome is `restartCall`; on its failure
the exception propagates and no state is touched.  On success a
timestamp is appended, `_consecutive_failures` is reset and
`_proc_responded_after_start` is cleared. -/
def _restart_unit (now : ℚ) (restartCall : Except MonitorError Unit)
    (st : MonitorState) : MonitorState × Except MonitorError Unit :=
  match restartCall with
  | Except.error e => (st, Except.error e)
  | Except.ok _ =>
      ({ st with
          restart_timestamps_monotonic := st.restart_timestamps_monotonic ++ [now],
          consecutive_failures := 0,
          proc_responded_after_start := false },
        Except.ok ())

/-- Model of `Monitor.attempt_restart` (lines 287-306).  `active_state`
is the unit state observed by the fresh `get_unit_state` query inside
`is_restart_allowed`.  If disallowed, the skip is logged and `False`
returned; if allowed, `_restart_unit` runs and any exception it raises
is logged and re-raised. -/
def attempt_restart (cfg : Config) (now : ℚ) (active_state : String)
    (restartCall : Except MonitorError Unit) (st : MonitorState) :
    MonitorState × Except MonitorError Bool :=
  match is_restart_allowed cfg now active_state st with
  | (st1, Except.error e) => (st1, Except.error e)
  | (st1, Except.ok (false, _reason)) => (st1, Except.ok false)
  | (st1, Except.ok (true, _reason)) =>
      match _restart_unit now restartCall st1 with
      | (st2, Except.error e) => (st2, Except.error e)
      | (st2, Except.ok _) => (st2, Except.ok true)

/-- The four transitional `ActiveState` values the wait loop in
`Monitor.check_server` recognizes (lines 315-317). -/
def transitional_states : List String :=
  [("activating"), ("deactivating"), ("reloading"), ("refreshing")]

/-- One tick's transitional-wait loop from the top of
`Monitor.check_server` (lines 313-324): while the state is transitional,
sleep 10 s, add 10 to `time_waited` and re-query; raise `RuntimeError`
when the check `time_waited >= 300` fires.  `stateAt k` is the result of
the (k+1)-th `get_unit_state` query of this tick.  `time_waited` only
ever takes the values 0, 10, ..., 300, so the loop re-queries at most 30
times before the raise; `fuel = (300 - time_waited) / 10` counts the
re-queries still possible before that, and the fuel-0 case is exactly
the `time_waited >= 300` raise check. -/
def wait_transitional_go (unit : String) (stateAt : Nat → String) :
    String → Nat → Nat → Except MonitorError String
  | active_state, time_waited, 0 =>
    if active_state ∈ transitional_states then
      Except.error (MonitorError.runtimeError
        (s!"Unit {unit} has been in state {active_state} over {time_waited}s"))
    else Except.ok active_state
  | active_state, time_waited, fuel + 1 =>
    if active_state ∈ transitional_states then
      wait_transitional_go unit stateAt (stateAt (time_waited / 10 + 1)) (time_waited + 10) fuel
    else Except.ok active_state

/-- The transitional wait as `Monitor.check_server` enters it:
`time_waited = 0`, first query already made, 30 re-queries until the
300 s limit. -/
def wait_transitional (unit : String) (stateAt : Nat → String) : Except MonitorError String :=
  wait_transitional_go unit stateAt (stateAt 0) 0 30

/-- The `case "active":` body of the dispatch in `Monitor.check_server`
(lines 342-367), acting on the counter-adjusted state `st1`: on probe
success reset the failure count and set the responded flag; on probe
failure during the startup grace period do nothing; otherwise count the
failure and, at the threshold, call `attempt_restart` (whose exception,
if any, propagates).  `allowState` is the state returned by the
`get_unit_state` query `is_restart_allowed` performs inside
`attempt_restart`. -/
def check_active_case (cfg : Config) (probeOk : Bool) (now : ℚ) (allowState : String)
    (restartCall : Except MonitorError Unit) (st1 : MonitorState) :
    Except MonitorError MonitorState :=
  if probeOk then
    Except.ok { st1 with consecutive_failures := 0, proc_responded_after_start := true }
  else
    if st1.proc_responded_after_start then
      let st2 : MonitorState :=
        { st1 with consecutive_failures := st1.consecutive_failures + 1 }
      if cfg.failure_threshold ≤ (st2.consecutive_failures : Int) then
        match attempt_restart cfg now allowState restartCall st2 with
        | (_, Except.error e) => Except.error e
        | (st3, Except.ok _) => Except.ok st3
      else Except.ok st2
    else Except.ok st1

/-- Model of the body of `Monitor.check_server` after the transitional
wait has resolved to `active_state` (lines 326-367): reset counters when
the unit is not active, then dispatch on the state — an unrecognized
state matches no `case` and falls through silently. -/
def check_server_after_wait (cfg : Config) (active_state : String)
    (probeOk : Bool) (now : ℚ) (allowState : String)
    (restartCall : Except MonitorError Unit) (st : MonitorState) :
    Except MonitorError MonitorState :=
  let st1 : MonitorState :=
    if active_state ≠ "active" then
      { st with consecutive_failures := 0, proc_responded_after_start := false }
    else st
  match active_state with
  | "maintenance" => Except.ok st1
  | "inactive" => Except.ok st1
  | "failed" => Except.ok st1
  | "active" => check_active_case cfg probeOk now allowState restartCall st1
  | _ => Except.ok st1

/-- The external inputs one tick of the monitor loop consumes. -/
structure TickInput where
  stateAt : Nat → String
  probeOk : Bool
  now : ℚ
  allowState : String
  restartCall : Except MonitorError Unit

/-- Model of one full `Monitor.check_server` call (lines 310-367): the
transitional wait, then the dispatch. -/
def check_server (cfg : Config) (unit : String) (t : TickInput)
    (st : MonitorState) : Except MonitorError MonitorState :=
  match wait_transitional unit t.stateAt with
  | Except.error e => Except.error e
  | Except.ok active_state =>
      check_server_after_wait cfg active_state t.probeOk t.now t.allowState
        t.restartCall st

/-- Model of `Monitor.run` (lines 369-382) over a finite schedule of
tick inputs: `while True: check_server(); sleep(interval)`.  Only
`KeyboardInterrupt` is caught, so any exception from `check_server`
propagates and terminates the loop (`Except.error`). -/
def run (cfg : Config) (unit : String) (ticks : List TickInput)
    (st : MonitorState) : Except MonitorError MonitorState :=
  match ticks with
  | [] => Except.ok st
  | t :: rest =>
      match check_server cfg unit t st with
      | Except.error e => Except.error e
      | Except.ok st1 => run cfg unit rest st1

/-- Model of `_have_dbus` (lines 33-39): whether `import dbus` succeeds
at the moment of the call. -/
def _have_dbus (dbus_available : Bool) : Bool := dbus_available

/-- The mode `Monitor.get_unit_properties` (lines 188-193) uses for a
call made while D-Bus availability is `dbus_available_now`: it calls
`_have_dbus()` and picks D-Bus or the systemctl fallback. -/
def get_unit_properties_mode (dbus_available_now : Bool) : ControlMode :=
  if _have_dbus dbus_available_now then ControlMode.dbus else ControlMode.systemctl

/-- The mode `Monitor._restart_unit` (lines 234-237) uses for a call made
while D-Bus availability is `dbus_available_now`: it calls `_have_dbus()`
and picks D-Bus or the systemctl fallback. -/
def restart_unit_mode (dbus_available_now : Bool) : ControlMode :=
  if _have_dbus dbus_available_now then ControlMode.dbus else ControlMode.systemctl

/-- The control mode used by the n-th control-channel call of the
process, when `avail n` is D-Bus availability at that call: the code
re-runs the `_have_dbus` capability check inside every call. -/
def mode_at_call (avail : Nat → Bool) (n : Nat) : ControlMode :=
  get_unit_properties_mode (avail n)

/-! ## Helper lemmas -/

/-- Python `int()` agrees with the floor on non-negative rationals. -/
theorem pyInt_eq_floor (q : ℚ) (h : 0 ≤ q) : pyInt q = ⌊q⌋ := by
  unfold pyInt
  rw [Int.tdiv_eq_ediv (Rat.num_nonneg.mpr h) (Int.natCast_nonneg q.den), Rat.floor_def]

/-- Whatever branch `is_restart_allowed` takes, the state it leaves
behind is the input state with the attempt history pruned. -/
theorem is_restart_allowed_fst (cfg : Config) (now : ℚ) (s : String) (st : MonitorState) :
    (is_restart_allowed cfg now s st).1
      = { st with restart_timestamps_monotonic :=
            prune_restart_timestamps now st.restart_timestamps_monotonic } := by
  unfold is_restart_allowed active_branch rate_limit_check
  dsimp only
  repeat' split
  all_goals rfl

/-- On any state string outside the recognized set, `is_restart_allowed`
raises `RuntimeError`. -/
theorem is_restart_allowed_unknown (cfg : Config) (now : ℚ) (s : String) (st : MonitorState)
    (hs : s ∉ known_states) :
    (is_restart_allowed cfg now s st).2
      = Except.error (MonitorError.runtimeError (unknown_state_reason s)) := by
  unfold is_restart_allowed
  split <;> simp_all [known_states, unknown_state_reason]

/-- The post-wait dispatch of `check_server` on any non-`"active"` state
returns normally with both counters reset. -/
theorem after_wait_non_active (cfg : Config) (s : String) (probeOk : Bool) (now : ℚ)
    (allowState : String) (call : Except MonitorError Unit) (st : MonitorState)
    (hs : s ≠ ("active")) :
    check_server_after_wait cfg s probeOk now allowState call st
      = Except.ok { st with consecutive_failures := 0, proc_responded_after_start := false } := by
  unfold check_server_after_wait
  rw [if_pos hs]
  split <;> simp_all

/-- If the pre-check disallows, `attempt_restart` only prunes the
history and reports that no restart was attempted. -/
theorem attempt_restart_skip (cfg : Config) (now : ℚ) (s : String)
    (call : Except MonitorError Unit) (st : MonitorState) (r : String)
    (h2 : (is_restart_allowed cfg now s st).2 = Except.ok (false, r)) :
    attempt_restart cfg now s call st
      = ({ st with restart_timestamps_monotonic :=
            prune_restart_timestamps now st.restart_timestamps_monotonic },
          Except.ok false) := by
  unfold attempt_restart
  rcases hq : is_restart_allowed cfg now s st with ⟨a, b⟩
  have ha := is_restart_allowed_fst cfg now s st
  rw [hq] at ha h2
  dsimp only at ha h2
  subst ha
  subst h2
  rfl

/-- If the pre-check allows but the control call raises, the exception
propagates out of `attempt_restart` and the state keeps only the
pruning. -/
theorem attempt_restart_error (cfg : Config) (now : ℚ) (s : String) (e : MonitorError)
    (st : MonitorState) (r : String)
    (h2 : (is_restart_allowed cfg now s st).2 = Except.ok (true, r)) :
    attempt_restart cfg now s (Except.error e) st
      = ({ st with restart_timestamps_monotonic :=
            prune_restart_timestamps now st.restart_timestamps_monotonic },
          Except.error e) := by
  unfold attempt_restart
  rcases hq : is_restart_allowed cfg now s st with ⟨a, b⟩
  have ha := is_restart_allowed_fst cfg now s st
  rw [hq] at ha h2
  dsimp only at ha h2
  subst ha
  subst h2
  rfl

/-- On any error outcome of the control call, `attempt_restart` leaves
the state with only the pruning applied, in every branch. -/
theorem attempt_restart_error_fst (cfg : Config) (now : ℚ) (s : String) (e : MonitorError)
    (st : MonitorState) :
    (attempt_restart cfg now s (Except.error e) st).1
      = { st with restart_timestamps_monotonic :=
            prune_restart_timestamps now st.restart_timestamps_monotonic } := by
  unfold attempt_restart
  rcases hq : is_restart_allowed cfg now s st with ⟨a, b⟩
  have ha := is_restart_allowed_fst cfg now s st
  rw [hq] at ha
  dsimp only at ha
  subst ha
  rcases b with e2 | ⟨bb, r⟩
  · rfl
  · cases bb
    · rfl
    · rfl

/-- Reaching the cooldown branch: active unit, process has responded,
pruned history non-empty, elapsed below the cooldown. -/
theorem is_restart_allowed_cooldown (cfg : Config) (now last : ℚ) (st : MonitorState)
    (hresp : st.proc_responded_after_start = true)
    (hlast : (prune_restart_timestamps now st.restart_timestamps_monotonic).getLast? = some last)
    (hcd : now - last < cfg.restart_cooldown) :
    (is_restart_allowed cfg now ("active") st).2
      = Except.ok (false, cooldown_reason (pyInt (cfg.restart_cooldown - (now - last)))) := by
  have h0 : is_restart_allowed cfg now ("active") st
      = active_branch cfg now
          { st with restart_timestamps_monotonic :=
              prune_restart_timestamps now st.restart_timestamps_monotonic } := rfl
  rw [h0]
  unfold active_branch
  dsimp only
  rw [hresp]
  rw [if_neg (by simp)]
  rw [hlast]
  dsimp only
  rw [if_pos hcd]
  rfl

/-- Reaching the rate-limit fall-through: active unit, process has
responded, and the cooldown is satisfied (pruned history empty, or last
attempt at least a cooldown ago). -/
theorem is_restart_allowed_rate_branch (cfg : Config) (now : ℚ) (st : MonitorState)
    (hresp : st.proc_responded_after_start = true)
    (hcool : ∀ last, (prune_restart_timestamps now st.restart_timestamps_monotonic).getLast?
        = some last → cfg.restart_cooldown ≤ now - last) :
    is_restart_allowed cfg now ("active") st
      = rate_limit_check cfg
          { st with restart_timestamps_monotonic :=
              prune_restart_timestamps now st.restart_timestamps_monotonic } := by
  have h0 : is_restart_allowed cfg now ("active") st
      = active_branch cfg now
          { st with restart_timestamps_monotonic :=
              prune_restart_timestamps now st.restart_timestamps_monotonic } := rfl
  rw [h0]
  unfold active_branch
  dsimp only
  rw [hresp]
  rw [if_neg (by simp)]
  cases hgl : (prune_restart_timestamps now st.restart_timestamps_monotonic).getLast? with
  | none => rfl
  | some last =>
      dsimp only
      rw [if_neg (not_lt.mpr (hcool last hgl))]

/-! ## Claim theorems -/

/-- C7: for every configuration, time and engine state,
`is_restart_allowed` returns disallow when the observed unit state is
failed, inactive, maintenance, or any transitional state (activating,
deactivating, reloading, refreshing), with a reason naming the
transitional sub-state in the transitional case. -/
theorem c7_disallow_failed_inactive_maintenance_transitional
    (cfg : Config) (now : ℚ) (st : MonitorState) :
    (is_restart_allowed cfg now ("failed") st).2
      = Except.ok (false, ("restart forbidden as the unit failed")) ∧
    (is_restart_allowed cfg now ("inactive") st).2
      = Except.ok (false, ("unit is listed as inactive")) ∧
    (is_restart_allowed cfg now ("maintenance") st).2
      = Except.ok (false, ("unit is in maintenance")) ∧
    (is_restart_allowed cfg now ("activating") st).2
      = Except.ok (false, ("unit is in a transitional state activating")) ∧
    (is_restart_allowed cfg now ("deactivating") st).2
      = Except.ok (false, ("unit is in a transitional state deactivating")) ∧
    (is_restart_allowed cfg now ("reloading") st).2
      = Except.ok (false, ("unit is in a transitional state reloading")) ∧
    (is_restart_allowed cfg now ("refreshing") st).2
      = Except.ok (false, ("unit is in a transitional state refreshing")) :=
  ⟨rfl, rfl, rfl, rfl, rfl, rfl, rfl⟩

/-- C10: if the underlying restart call raises, `_restart_unit` returns
the state unchanged and re-raises; the append/reset mutations happen
only on the success path; and `attempt_restart` with a failing control
call leaves a state that differs from the input only by the pruning done
by the pre-check (no timestamp appended, `consecutive_failures` not
reset, `proc_responded_after_start` not cleared). -/
theorem c10_no_state_mutation_on_failed_control_call
    (cfg : Config) (now : ℚ) (e : MonitorError) (st : MonitorState) :
    _restart_unit now (Except.error e) st = (st, Except.error e) ∧
    _restart_unit now (Except.ok ()) st
      = ({ st with
            restart_timestamps_monotonic := st.restart_timestamps_monotonic ++ [now],
            consecutive_failures := 0,
            proc_responded_after_start := false },
          Except.ok ()) ∧
    ∀ s, (attempt_restart cfg now s (Except.error e) st).1
        = { st with restart_timestamps_monotonic :=
              prune_restart_timestamps now st.restart_timestamps_monotonic } :=
  ⟨rfl, rfl, fun s => attempt_restart_error_fst cfg now s e st⟩

/-- C3: when the unit is Active but no probe has succeeded since the
last (re)start, `is_restart_allowed` disallows with the startup-grace
reason, whatever the failure count and attempt history, and
`attempt_restart` therefore never invokes the control call: it returns
False with the state only pruned. -/
theorem c3_no_restart_before_first_response (cfg : Config) (now : ℚ) (st : MonitorState)
    (h : st.proc_responded_after_start = false) :
    (is_restart_allowed cfg now ("active") st).2
      = Except.ok (false, ("current unit process has not responded yet; likely in startup")) ∧
    ∀ call, attempt_restart cfg now ("active") call st
      = ({ st with restart_timestamps_monotonic :=
            prune_restart_timestamps now st.restart_timestamps_monotonic },
          Except.ok false) := by
  have h1 : (is_restart_allowed cfg now ("active") st).2
      = Except.ok (false, ("current unit process has not responded yet; likely in startup")) := by
    have h0 : is_restart_allowed cfg now ("active") st
        = active_branch cfg now
            { st with restart_timestamps_monotonic :=
                prune_restart_timestamps now st.restart_timestamps_monotonic } := rfl
    rw [h0]
    unfold active_branch
    dsimp only
    rw [h]
    rfl
  exact ⟨h1, fun call => attempt_restart_skip cfg now ("active") call st _ h1⟩

/-- Witness for C3 at a concrete input: five consecutive failures, one
old attempt on record, unit active, no response since start. -/
theorem c3_no_restart_before_first_response_witness :
    ((⟨5, [10], false⟩ : MonitorState).proc_responded_after_start = false) ∧
    (is_restart_allowed ⟨3, 300, 0⟩ 20 ("active") ⟨5, [10], false⟩).2
      = Except.ok (false, ("current unit process has not responded yet; likely in startup")) ∧
    attempt_restart ⟨3, 300, 0⟩ 20 ("active") (Except.ok ()) ⟨5, [10], false⟩
      = (⟨5, [10], false⟩, Except.ok false) := by
  have h := c3_no_restart_before_first_response ⟨3, 300, 0⟩ 20 ⟨5, [10], false⟩ rfl
  refine ⟨rfl, h.1, ?_⟩
  rw [h.2 (Except.ok ())]
  norm_num [prune_restart_timestamps, bisect_left, bisect_left_aux]

/-- C5: in the cooldown branch the reported remaining seconds are
`int(cooldown - elapsed)`, which on this branch is the floor (truncation
toward zero of a positive value); at the concrete input of the claim
(attempt 100 s ago, cooldown 300 s) the reason reports 200 s. -/
theorem c5_cooldown_remaining_seconds (cfg : Config) (now last : ℚ) (st : MonitorState)
    (hresp : st.proc_responded_after_start = true)
    (hlast : (prune_restart_timestamps now st.restart_timestamps_monotonic).getLast? = some last)
    (hcd : now - last < cfg.restart_cooldown) :
    (is_restart_allowed cfg now ("active") st).2
      = Except.ok (false, cooldown_reason (pyInt (cfg.restart_cooldown - (now - last)))) ∧
    pyInt (cfg.restart_cooldown - (now - last)) = ⌊cfg.restart_cooldown - (now - last)⌋ ∧
    (is_restart_allowed ⟨3, 300, 0⟩ 1100 ("active") ⟨3, [1000], true⟩).2
      = Except.ok (false, ("cooldown (200s remaining)")) := by
  refine ⟨is_restart_allowed_cooldown cfg now last st hresp hlast hcd,
    pyInt_eq_floor _ (by linarith), ?_⟩
  simp only [is_restart_allowed, active_branch, prune_restart_timestamps, bisect_left,
    bisect_left_aux]
  norm_num [pyInt]
  all_goals decide

/-- Witness for C5 at the claim's concrete input. -/
theorem c5_cooldown_remaining_seconds_witness :
    ((prune_restart_timestamps 1100 [(1000 : ℚ)]).getLast? = some 1000) ∧
    ((1100 : ℚ) - 1000 < (300 : ℚ)) ∧
    (is_restart_allowed ⟨3, 300, 0⟩ 1100 ("active") ⟨3, [1000], true⟩).2
      = Except.ok (false, cooldown_reason (pyInt ((300 : ℚ) - (1100 - 1000)))) := by
  have hlast : (prune_restart_timestamps 1100 [(1000 : ℚ)]).getLast? = some 1000 := by
    norm_num [prune_restart_timestamps, bisect_left, bisect_left_aux]
  have hcd : (1100 : ℚ) - 1000 < (300 : ℚ) := by norm_num
  exact ⟨hlast, hcd,
    (c5_cooldown_remaining_seconds ⟨3, 300, 0⟩ 1100 1000 ⟨3, [1000], true⟩ rfl hlast hcd).1⟩

/-- With a constant-`"active"` state oracle, the transitional wait exits
immediately and `check_server` reduces to its post-wait dispatch. -/
theorem check_server_const_active (cfg : Config) (unit : String) (probeOk : Bool)
    (now : ℚ) (allowState : String) (call : Except MonitorError Unit) (st : MonitorState) :
    check_server cfg unit ⟨fun _ => ("active"), probeOk, now, allowState, call⟩ st
      = check_server_after_wait cfg ("active") probeOk now allowState call st := rfl

/-- C8: `consecutive_failures` is reset to 0 by every successful probe
(which also sets the responded flag), and every tick whose post-wait
observation is outside the Active state resets both
`consecutive_failures` (to 0) and `proc_responded_after_start`
(to false). -/
theorem c8_counters_reset_on_probe_success_and_state_exit
    (cfg : Config) (s : String) (probeOk : Bool) (now : ℚ) (allowState : String)
    (call : Except MonitorError Unit) (st : MonitorState)
    (hs : s ≠ ("active")) :
    check_server_after_wait cfg s probeOk now allowState call st
      = Except.ok { st with consecutive_failures := 0, proc_responded_after_start := false } ∧
    check_server_after_wait cfg ("active") true now allowState call st
      = Except.ok { st with consecutive_failures := 0, proc_responded_after_start := true } :=
  ⟨after_wait_non_active cfg s probeOk now allowState call st hs, rfl⟩

/-- Witness for C8 at concrete inputs: a tick observing `"failed"`, and
an active tick with a successful probe. -/
theorem c8_counters_reset_witness :
    (("failed" : String) ≠ ("active")) ∧
    check_server_after_wait ⟨3, 300, 0⟩ ("failed") false 100 ("active") (Except.ok ())
        ⟨2, [10], true⟩
      = Except.ok ⟨0, [10], false⟩ ∧
    check_server_after_wait ⟨3, 300, 0⟩ ("active") true 100 ("active") (Except.ok ())
        ⟨2, [10], true⟩
      = Except.ok ⟨0, [10], true⟩ := by
  have h := c8_counters_reset_on_probe_success_and_state_exit ⟨3, 300, 0⟩ ("failed") false 100
    ("active") (Except.ok ()) ⟨2, [10], true⟩ (by decide)
  exact ⟨by decide, h.1, h.2⟩

/-- C2 counterexample: a full `check_server` tick that observes the
unrecognized state `"dead"` returns normally (counters reset, no error
raised, no log), so not every code path observing an Unknown state
raises a fatal error. -/
theorem c2_unknown_state_not_always_fatal_cex :
    check_server ⟨3, 300, 0⟩ ("srv.service")
        ⟨fun _ => ("dead"), false, 200, ("active"), Except.ok ()⟩ ⟨2, [100], true⟩
      = Except.ok ⟨0, [100], false⟩ := by
  simp [check_server, wait_transitional, wait_transitional_go, transitional_states,
    check_server_after_wait]

/-- C2 amended: a state outside the recognized set raises the fatal
`RuntimeError` only on the `is_restart_allowed` path; `check_server`'s
own dispatch silently treats an unrecognized state like any non-active
state: counters reset, no error, the loop continues. -/
theorem c2_amended_unknown_state_fatal_only_in_decision
    (cfg : Config) (now now2 : ℚ) (s : String) (st : MonitorState)
    (probeOk : Bool) (allowState : String) (call : Except MonitorError Unit)
    (hs : s ∉ known_states) :
    (is_restart_allowed cfg now s st).2
      = Except.error (MonitorError.runtimeError (unknown_state_reason s)) ∧
    check_server_after_wait cfg s probeOk now2 allowState call st
      = Except.ok { st with consecutive_failures := 0, proc_responded_after_start := false } := by
  refine ⟨is_restart_allowed_unknown cfg now s st hs, ?_⟩
  have hne : s ≠ ("active") := by
    intro h
    rw [h] at hs
    exact hs (by decide)
  exact after_wait_non_active cfg s probeOk now2 allowState call st hne

/-- Witness for the amended C2 at the concrete state string `"dead"`. -/
theorem c2_amended_unknown_state_witness :
    (("dead" : String) ∉ known_states) ∧
    (is_restart_allowed ⟨3, 300, 0⟩ 200 ("dead") ⟨2, [100], true⟩).2
      = Except.error (MonitorError.runtimeError (unknown_state_reason ("dead"))) ∧
    check_server_after_wait ⟨3, 300, 0⟩ ("dead") false 200 ("active") (Except.ok ())
        ⟨2, [100], true⟩
      = Except.ok ⟨0, [100], false⟩ := by
  have h := c2_amended_unknown_state_fatal_only_in_decision ⟨3, 300, 0⟩ 200 200 ("dead")
    ⟨2, [100], true⟩ false ("active") (Except.ok ()) (by decide)
  exact ⟨by decide, h.1, h.2⟩

/-- C9 counterexample: with D-Bus available at the first call but not at
the next, consecutive control-channel calls use different modes — the
mode is a per-call capability check, not a one-time startup selection. -/
theorem c9_mode_not_fixed_at_startup_cex :
    mode_at_call (fun n => n == 0) 0 = ControlMode.dbus ∧
    mode_at_call (fun n => n == 0) 1 = ControlMode.systemctl :=
  ⟨rfl, rfl⟩

/-- C9 amended: `_have_dbus` runs inside every `get_unit_properties` and
`_restart_unit` call, so the mode used is a function of availability at
that call; both call sites select identically, and the behaviour matches
a one-time startup selection exactly when availability never changes. -/
theorem c9_amended_mode_rechecked_every_call (avail : Nat → Bool) (n : Nat) :
    mode_at_call avail n
      = (if avail n then ControlMode.dbus else ControlMode.systemctl) ∧
    restart_unit_mode (avail n) = get_unit_properties_mode (avail n) ∧
    ((∀ m, avail m = avail 0) → mode_at_call avail n = mode_at_call avail 0) := by
  refine ⟨rfl, rfl, fun h => ?_⟩
  unfold mode_at_call
  rw [h n]

/-- Witness for the amended C9: constant availability yields a constant
mode. -/
theorem c9_amended_mode_witness :
    (∀ m : Nat, ((fun _ => true) : Nat → Bool) m = ((fun _ => true) : Nat → Bool) 0) ∧
    mode_at_call (fun _ => true) 5 = mode_at_call (fun _ => true) 0 :=
  ⟨fun _ => rfl, (c9_amended_mode_rechecked_every_call (fun _ => true) 5).2.2 (fun _ => rfl)⟩

/-- C1 counterexample: a tick in which the pre-check allows the restart
and the control call fails does not continue to the next scheduled tick:
the `RestartFailed` exception escapes `run` (which catches only
`KeyboardInterrupt`) and the monitor loop terminates with it. -/
theorem c1_control_failure_terminates_loop_cex :
    (is_restart_allowed ⟨3, 300, 0⟩ 100 ("active") ⟨3, [], true⟩).2
      = Except.ok (true, ("restart allowed")) ∧
    run ⟨3, 300, 0⟩ ("srv.service")
        [⟨fun _ => ("active"), false, 100, ("active"),
            Except.error (MonitorError.restartFailed ("dbus down"))⟩,
         ⟨fun _ => ("active"), true, 400, ("active"), Except.ok ()⟩]
        ⟨2, [], true⟩
      = Except.error (MonitorError.restartFailed ("dbus down")) := by
  constructor
  · simp [is_restart_allowed, active_branch, rate_limit_check, prune_restart_timestamps,
      bisect_left, bisect_left_aux]
  · simp [run, check_server, wait_transitional, wait_transitional_go, transitional_states,
      check_server_after_wait, check_active_case, attempt_restart, is_restart_allowed,
      active_branch, rate_limit_check, _restart_unit, prune_restart_timestamps,
      bisect_left, bisect_left_aux]

/-- C1 amended: when the failure threshold is reached and the pre-check
allows a restart but the control call raises, the failure is logged and
the exception is re-raised by `attempt_restart`; neither `check_server`
nor `run` catches it, so the loop terminates with the error instead of
proceeding to the next scheduled tick. -/
theorem c1_amended_control_failure_propagates (cfg : Config) (unit : String) (now : ℚ)
    (allowState : String) (e : MonitorError) (st : MonitorState) (ticks : List TickInput)
    (hresp : st.proc_responded_after_start = true)
    (hthr : cfg.failure_threshold ≤ (st.consecutive_failures : Int) + 1)
    (hallow : (is_restart_allowed cfg now allowState
        { st with consecutive_failures := st.consecutive_failures + 1 }).2
      = Except.ok (true, ("restart allowed"))) :
    check_server_after_wait cfg ("active") false now allowState (Except.error e) st
      = Except.error e ∧
    run cfg unit (⟨fun _ => ("active"), false, now, allowState, Except.error e⟩ :: ticks) st
      = Except.error e := by
  have h1 : check_server_after_wait cfg ("active") false now allowState (Except.error e) st
      = Except.error e := by
    have h0 : check_server_after_wait cfg ("active") false now allowState (Except.error e) st
        = check_active_case cfg false now allowState (Except.error e) st := rfl
    rw [h0]
    unfold check_active_case
    rw [if_neg (by simp)]
    rw [if_pos hresp]
    dsimp only
    rw [if_pos (by push_cast; exact hthr)]
    rw [attempt_restart_error cfg now allowState e
      { st with consecutive_failures := st.consecutive_failures + 1 } _ hallow]
  refine ⟨h1, ?_⟩
  have h2 : check_server cfg unit
      ⟨fun _ => ("active"), false, now, allowState, Except.error e⟩ st = Except.error e := by
    rw [check_server_const_active]
    exact h1
  simp only [run, h2]

/-- Witness for the amended C1: threshold 1, empty history, a failing
control call; the one-tick run ends with the error. -/
theorem c1_amended_control_failure_witness :
    ((⟨1, 300, 0⟩ : Config).failure_threshold
        ≤ (((⟨0, [], true⟩ : MonitorState).consecutive_failures : Int) + 1)) ∧
    (is_restart_allowed ⟨1, 300, 0⟩ 50 ("active") ⟨1, [], true⟩).2
      = Except.ok (true, ("restart allowed")) ∧
    run ⟨1, 300, 0⟩ ("srv.service")
        [⟨fun _ => ("active"), false, 50, ("active"),
            Except.error (MonitorError.restartFailed ("boom"))⟩]
        ⟨0, [], true⟩
      = Except.error (MonitorError.restartFailed ("boom")) := by
  have hallow : (is_restart_allowed ⟨1, 300, 0⟩ 50 ("active") ⟨1, [], true⟩).2
      = Except.ok (true, ("restart allowed")) := by
    simp [is_restart_allowed, active_branch, rate_limit_check, prune_restart_timestamps,
      bisect_left, bisect_left_aux]
  refine ⟨by decide, hallow, ?_⟩
  exact (c1_amended_control_failure_propagates ⟨1, 300, 0⟩ ("srv.service") 50 ("active")
    (MonitorError.restartFailed ("boom")) ⟨0, [], true⟩ [] rfl (by decide) hallow).2

/-- C6: with the unit active, a successful probe on record and the
cooldown satisfied, a positive `max_restarts_per_hour = N` disallows a
check exactly when the pruned rolling-hour history holds at least N
entries — with the current count in the reason — and `N = 0` (unlimited)
never disallows by count. -/
theorem c6_rolling_hour_rate_limit (cfg : Config) (now : ℚ) (st : MonitorState)
    (hresp : st.proc_responded_after_start = true)
    (hcool : ∀ last, (prune_restart_timestamps now st.restart_timestamps_monotonic).getLast?
        = some last → cfg.restart_cooldown ≤ now - last) :
    (0 < cfg.max_restarts_per_hour →
      ((prune_restart_timestamps now st.restart_timestamps_monotonic).length : Int)
          < cfg.max_restarts_per_hour →
      (is_restart_allowed cfg now ("active") st).2 = Except.ok (true, ("restart allowed"))) ∧
    (0 < cfg.max_restarts_per_hour →
      cfg.max_restarts_per_hour
          ≤ ((prune_restart_timestamps now st.restart_timestamps_monotonic).length : Int) →
      (is_restart_allowed cfg now ("active") st).2
        = Except.ok (false, rate_limit_reason
            (prune_restart_timestamps now st.restart_timestamps_monotonic).length)) ∧
    (cfg.max_restarts_per_hour = 0 →
      (is_restart_allowed cfg now ("active") st).2 = Except.ok (true, ("restart allowed"))) := by
  have hb : (is_restart_allowed cfg now ("active") st).2
      = (rate_limit_check cfg
          { st with restart_timestamps_monotonic :=
              prune_restart_timestamps now st.restart_timestamps_monotonic }).2 := by
    rw [is_restart_allowed_rate_branch cfg now st hresp hcool]
  refine ⟨fun h1 h2 => ?_, fun h1 h2 => ?_, fun h1 => ?_⟩ <;>
    rw [hb] <;> unfold rate_limit_check <;> dsimp only
  · rw [if_neg (by omega)]
  · rw [if_pos ⟨h1, h2⟩]
    rfl
  · rw [if_neg (by omega)]

/-- Witness for C6: cooldown 0, one attempt 50 s ago; allowed with
N = 2, disallowed with count 1 when N = 1, allowed with N = 0. -/
theorem c6_rolling_hour_rate_limit_witness :
    ((prune_restart_timestamps 100 [(50 : ℚ)]).length = 1) ∧
    (is_restart_allowed ⟨1, 0, 2⟩ 100 ("active") ⟨0, [50], true⟩).2
      = Except.ok (true, ("restart allowed")) ∧
    (is_restart_allowed ⟨1, 0, 1⟩ 100 ("active") ⟨0, [50], true⟩).2
      = Except.ok (false, rate_limit_reason 1) ∧
    (is_restart_allowed ⟨1, 0, 0⟩ 100 ("active") ⟨0, [50], true⟩).2
      = Except.ok (true, ("restart allowed")) := by
  have hp : prune_restart_timestamps 100 [(50 : ℚ)] = [50] := by
    norm_num [prune_restart_timestamps, bisect_left, bisect_left_aux]
  have hcool : ∀ last, (prune_restart_timestamps 100 [(50 : ℚ)]).getLast? = some last →
      (0 : ℚ) ≤ 100 - last := by
    intro last h
    rw [hp] at h
    simp at h
    subst h
    norm_num
  refine ⟨by rw [hp]; rfl, ?_, ?_, ?_⟩
  · exact (c6_rolling_hour_rate_limit ⟨1, 0, 2⟩ 100 ⟨0, [50], true⟩ rfl hcool).1
      (by decide) (by rw [hp]; decide)
  · have h := (c6_rolling_hour_rate_limit ⟨1, 0, 1⟩ 100 ⟨0, [50], true⟩ rfl hcool).2.1
      (by decide) (by rw [hp]; decide)
    rw [hp] at h
    exact h
  · exact (c6_rolling_hour_rate_limit ⟨1, 0, 0⟩ 100 ⟨0, [50], true⟩ rfl hcool).2.2 rfl

/-- The take-while prefix is never longer than the list. -/
theorem length_takeWhile_le_len (p : ℚ → Bool) (l : List ℚ) :
    (l.takeWhile p).length ≤ l.length := by
  induction l with
  | nil => simp
  | cons hd tl ih =>
      rw [List.takeWhile_cons]
      by_cases hp : p hd
      · simp only [hp, if_true, List.length_cons]
        omega
      · simp [hp]

/-- On a sorted list, position `i` holds a value below `x` exactly when
`i` lies inside the `< x` prefix. -/
theorem takeWhile_lt_char (x : ℚ) :
    ∀ a : List ℚ, a.Sorted (· ≤ ·) → ∀ i, i < a.length →
      (a.getD i 0 < x ↔ i < (a.takeWhile (fun t => decide (t < x))).length) := by
  intro a
  induction a with
  | nil => intro _ i hi; simp at hi
  | cons hd tl ih =>
      intro hs i hi
      rw [List.sorted_cons] at hs
      by_cases hx : hd < x
      · have htw : (hd :: tl).takeWhile (fun t => decide (t < x))
            = hd :: tl.takeWhile (fun t => decide (t < x)) := by
          simp [List.takeWhile_cons, hx]
        rw [htw]
        cases i with
        | zero => simp [hx]
        | succ j =>
            have hj : j < tl.length := by simp at hi; omega
            rw [List.getD_cons_succ, List.length_cons]
            rw [ih hs.2 j hj]
            omega
      · have htw : (hd :: tl).takeWhile (fun t => decide (t < x)) = [] := by
          simp [List.takeWhile_cons, hx]
        rw [htw]
        simp only [List.length_nil, Nat.not_lt_zero, iff_false]
        cases i with
        | zero => simpa using hx
        | succ j =>
            have hj : j < tl.length := by simp at hi; omega
            rw [List.getD_cons_succ]
            have hmem : tl.getD j 0 ∈ tl := by
              rw [List.getD_eq_getElem tl 0 hj]
              exact List.getElem_mem hj
            have hle : hd ≤ tl.getD j 0 := hs.1 _ hmem
            intro hlt
            exact hx (lt_of_le_of_lt hle hlt)

/-- The binary-search loop returns the unique boundary `L` whose
characteristic property holds, whenever the search interval brackets `L`
and the fuel covers the interval. -/
theorem bisect_left_aux_char (a : List ℚ) (x : ℚ) (L : Nat)
    (hchar : ∀ i, i < a.length → (a.getD i 0 < x ↔ i < L)) :
    ∀ fuel lo hi, hi - lo ≤ fuel → lo ≤ L → L ≤ hi → hi ≤ a.length →
      bisect_left_aux a x lo hi fuel = L := by
  intro fuel
  induction fuel with
  | zero =>
      intro lo hi h1 h2 h3 h4
      simp only [bisect_left_aux]
      omega
  | succ fuel ih =>
      intro lo hi h1 h2 h3 h4
      simp only [bisect_left_aux]
      by_cases hlt : lo < hi
      · rw [if_pos hlt]
        by_cases hm : a.getD ((lo + hi) / 2) 0 < x
        · rw [if_pos hm]
          have hmidL : (lo + hi) / 2 < L := (hchar _ (by omega)).mp hm
          exact ih ((lo + hi) / 2 + 1) hi (by omega) (by omega) h3 h4
        · rw [if_neg hm]
          have hmidL : ¬ (lo + hi) / 2 < L := fun hc => hm ((hchar _ (by omega)).mpr hc)
          exact ih lo ((lo + hi) / 2) (by omega) h2 (by omega) (by omega)
      · rw [if_neg hlt]
        omega

/-- On a sorted list, `bisect_left` returns the length of the strict
`< x` prefix — the leftmost insertion point. -/
theorem bisect_left_eq_takeWhile (x : ℚ) (a : List ℚ) (hs : a.Sorted (· ≤ ·)) :
    bisect_left a x = (a.takeWhile (fun t => decide (t < x))).length := by
  unfold bisect_left
  exact bisect_left_aux_char a x _ (takeWhile_lt_char x a hs) a.length 0 a.length
    (by omega) (Nat.zero_le _) (length_takeWhile_le_len _ a) (le_refl _)

/-- Dropping the take-while prefix leaves the drop-while suffix. -/
theorem drop_length_takeWhile (p : ℚ → Bool) :
    ∀ a : List ℚ, a.drop (a.takeWhile p).length = a.dropWhile p := by
  intro a
  induction a with
  | nil => rfl
  | cons hd tl ih =>
      rw [List.takeWhile_cons, List.dropWhile_cons]
      by_cases hp : p hd
      · simp [hp, List.drop_succ_cons, ih]
      · simp [hp]

/-- Pruning always keeps a suffix: the list from the `bisect_left`
insertion point on. -/
theorem prune_eq_drop (now : ℚ) (ts : List ℚ) :
    prune_restart_timestamps now ts = ts.drop (bisect_left ts (now - 3600)) := by
  simp only [prune_restart_timestamps]
  split
  · rfl
  · next h =>
      rw [not_not.mp h, List.drop_zero]

/-- On a sorted history, pruning is exactly dropping the strict
`< now - 3600` prefix. -/
theorem prune_eq_dropWhile (now : ℚ) (ts : List ℚ) (hs : ts.Sorted (· ≤ ·)) :
    prune_restart_timestamps now ts
      = ts.dropWhile (fun t => decide (t < now - 3600)) := by
  rw [prune_eq_drop, bisect_left_eq_takeWhile _ _ hs, drop_length_takeWhile]

/-- On a sorted list, every element surviving the drop-while is at or
past the cutoff. -/
theorem sorted_dropWhile_window (c : ℚ) :
    ∀ a : List ℚ, a.Sorted (· ≤ ·) →
      ∀ t ∈ a.dropWhile (fun t => decide (t < c)), c ≤ t := by
  intro a
  induction a with
  | nil => intro _ t ht; simp at ht
  | cons hd tl ih =>
      intro hs t ht
      rw [List.sorted_cons] at hs
      rw [List.dropWhile_cons] at ht
      by_cases hc : hd < c
      · rw [if_pos (by simpa using hc)] at ht
        exact ih hs.2 t ht
      · rw [if_neg (by simpa using hc)] at ht
        rcases List.mem_cons.mp ht with h | h
        · subst h
          exact le_of_not_lt hc
        · exact le_trans (le_of_not_lt hc) (hs.1 t h)

/-- An element at or past the cutoff is never dropped by the
drop-while. -/
theorem mem_dropWhile_of_window (c : ℚ) (a : List ℚ) (t : ℚ) (ht : t ∈ a) (hge : c ≤ t) :
    t ∈ a.dropWhile (fun s => decide (s < c)) := by
  have hsplit := List.takeWhile_append_dropWhile (fun s => decide (s < c)) a
  rw [← hsplit] at ht
  rcases List.mem_append.mp ht with h | h
  · have hlt := List.mem_takeWhile_imp h
    simp at hlt
    exact absurd hlt (not_lt.mpr hge)
  · exact h

/-- C4: for every sorted-ascending attempt history, after pruning every
retained entry is at most 3600 s older than `now`, the result is a
suffix of the original sequence (no reordering), no entry inside the
window is dropped, and the result is still sorted ascending. -/
theorem c4_prune_window_suffix_sorted (now : ℚ) (ts : List ℚ)
    (hs : ts.Sorted (· ≤ ·)) :
    (∀ t ∈ prune_restart_timestamps now ts, now - t ≤ 3600) ∧
    (∃ k, prune_restart_timestamps now ts = ts.drop k) ∧
    (∀ t ∈ ts, now - t ≤ 3600 → t ∈ prune_restart_timestamps now ts) ∧
    (prune_restart_timestamps now ts).Sorted (· ≤ ·) := by
  refine ⟨?_, ⟨bisect_left ts (now - 3600), prune_eq_drop now ts⟩, ?_, ?_⟩
  · intro t ht
    rw [prune_eq_dropWhile now ts hs] at ht
    have := sorted_dropWhile_window (now - 3600) ts hs t ht
    linarith
  · intro t ht hw
    rw [prune_eq_dropWhile now ts hs]
    exact mem_dropWhile_of_window (now - 3600) ts t ht (by linarith)
  · rw [prune_eq_drop now ts]
    exact List.Pairwise.sublist (List.drop_sublist _ _) hs

/-- Witness for C4 at a concrete sorted history: `now = 4000` prunes the
entry older than 3600 s and keeps the in-window suffix. -/
theorem c4_prune_witness :
    ([(100 : ℚ), 500, 900].Sorted (· ≤ ·)) ∧
    prune_restart_timestamps 4000 [100, 500, 900] = [500, 900] ∧
    (∀ t ∈ prune_restart_timestamps 4000 [100, 500, 900], (4000 : ℚ) - t ≤ 3600) ∧
    (∃ k, prune_restart_timestamps 4000 [100, 500, 900]
        = [(100 : ℚ), 500, 900].drop k) ∧
    (∀ t ∈ [(100 : ℚ), 500, 900], (4000 : ℚ) - t ≤ 3600 →
        t ∈ prune_restart_timestamps 4000 [100, 500, 900]) ∧
    (prune_restart_timestamps 4000 [100, 500, 900]).Sorted (· ≤ ·) := by
  have hsorted : [(100 : ℚ), 500, 900].Sorted (· ≤ ·) := by
    norm_num [List.sorted_cons]
  have h := c4_prune_window_suffix_sorted 4000 [100, 500, 900] hsorted
  refine ⟨hsorted, ?_, h.1, h.2.1, h.2.2.1, h.2.2.2⟩
  norm_num [prune_restart_timestamps, bisect_left, bisect_left_aux]
